import Mathlib

/-!
Dock registry and toolbar refresh of the Atom tools windows.

A shallow embedding of

* `Gems/Atom/Tools/AtomToolsFramework/Code/Source/Window/AtomToolsMainWindow.cpp`
* `Gems/Atom/Tools/MaterialEditor/Code/Source/Window/ToolBar/MaterialEditorToolBar.cpp`

Member functions become functions that take the object and return the updated
object (and the C++ return value, when there is one).  The two
`AZStd::unordered_map` members are association lists with unique keys
(`AList`): `find` is `AList.lookup`, `operator[]` assignment is `AList.insert`,
`erase` is `AList.erase`.  Objects created with `new` and owned by a map are
stored in the map by value together with the handle (address) they were
allocated at.

Qt objects are modelled by the properties the source reads and writes.
`setChecked` stores the check state of a checkable action and `isChecked`
reads it.  Visibility follows Qt: `setVisible` on a dock container records
whether the container is hidden, and `isVisible` is true only when the
container is not hidden and the main window, its parent, is visible itself.
Dock containers are the docked children `AddDockWidget` makes them; floating
them, layouting and signal delivery are outside the model.  The status bar
metrics are computed in floating point and are not part of the model.
-/

/-- A `QAction`: the handle it was allocated at, its text and its check state. -/
structure QAction where
  handle : Nat
  text : String
  checkable : Bool
  checked : Bool
  deriving DecidableEq, Repr

namespace QAction

/-- Embeds `QAction::setCheckable`. -/
def setCheckable (self : QAction) (b : Bool) : QAction :=
  { self with checkable := b }

/-- Embeds `QAction::setChecked`: ignored on an action that is not checkable. -/
def setChecked (self : QAction) (b : Bool) : QAction :=
  if self.checkable then { self with checked := b } else self

/-- Embeds `QAction::isChecked`. -/
def isChecked (self : QAction) : Bool :=
  self.checked

end QAction

namespace AtomToolsFramework

/-- The widget wrapped by a dock container, with the properties `AddDockWidget` sets on it. -/
structure QWidget where
  handle : Nat
  objectName : String
  windowTitle : String
  minimumSize : Nat × Nat
  deriving DecidableEq, Repr

/-- An `AzQtComponents::StyledDockWidget` owned by the dock registry: the properties
`AddDockWidget` gives it, where it was placed, and whether it is hidden
(`QWidget::isHidden`: it stays invisible even when its parent is shown). -/
structure StyledDockWidget where
  handle : Nat
  title : String
  objectName : String
  closable : Bool
  floatable : Bool
  movable : Bool
  widget : QWidget
  area : Nat
  orientation : Nat
  extent : Nat
  hidden : Bool
  deriving DecidableEq, Repr

namespace StyledDockWidget

/-- Embeds `QWidget::setVisible` on the dock container: showing clears the hidden
state, hiding sets it. -/
def setVisible (self : StyledDockWidget) (visible : Bool) : StyledDockWidget :=
  { self with hidden := !visible }

/-- Embeds `QWidget::isVisible` on the dock container, a child of the main window:
it is visible when it is not hidden and its parent is visible. -/
def isVisible (self : StyledDockWidget) (parentVisible : Bool) : Bool :=
  !self.hidden && parentVisible

end StyledDockWidget

/-- An entry of a `QMenu`. -/
inductive MenuEntry where
  | action (a : QAction)
  | separator
  deriving DecidableEq, Repr

namespace MenuEntry

/-- Whether the entry is the action allocated at `handle`. -/
def isAction (handle : Nat) : MenuEntry → Bool
  | action a => a.handle == handle
  | separator => false

end MenuEntry

/-- Embeds `Qt::BottomDockWidgetArea`. -/
def Qt.BottomDockWidgetArea : Nat := 8

/-- Embeds `Qt::Horizontal`. -/
def Qt.Horizontal : Nat := 1

/-- The members of `AtomToolsMainWindow` that the dock functions touch.
`m_menuView` lists the entries of the View menu, `visible` is
`QWidget::isVisible` of the main window itself, and `nextHandle` is the next
address `new` returns. -/
structure AtomToolsMainWindow where
  m_dockWidgets : AList (fun _ : String => StyledDockWidget)
  m_dockActions : AList (fun _ : String => QAction)
  m_menuView : List MenuEntry
  visible : Bool
  nextHandle : Nat
  deriving DecidableEq

namespace AtomToolsMainWindow

/-- Embeds `AtomToolsMainWindow::AddDockWidget`. The new dock container is a child of
the main window and is not visible when the call returns: created under a
visible parent it starts hidden (the layout shows it later, a
`SetDockWidgetVisible(name, true)` step of the reachable states), created
under a parent that is not shown it is not hidden and appears with the
parent. -/
def AddDockWidget (self : AtomToolsMainWindow) (name : String) (widget : Option Nat)
    (area orientation : Nat) : Bool × AtomToolsMainWindow :=
  let dockWidgetItr := self.m_dockWidgets.lookup name
  if dockWidgetItr.isSome || widget.isNone then
    (false, self)
  else
    match widget with
    | none => (false, self)
    | some w =>
      let dockWidget : StyledDockWidget :=
        { handle := self.nextHandle
          title := name
          objectName := name ++ "_DockWidget"
          closable := true
          floatable := true
          movable := true
          widget :=
            { handle := w
              objectName := name ++ "_Widget"
              windowTitle := name
              minimumSize := (300, 300) }
          area := area
          orientation := orientation
          extent := 400
          hidden := self.visible }
      let dockAction : QAction :=
        { handle := self.nextHandle + 1, text := name, checkable := false, checked := false }
      (true,
        { self with
          m_dockWidgets := self.m_dockWidgets.insert name dockWidget
          m_dockActions := self.m_dockActions.insert name dockAction
          m_menuView := self.m_menuView ++ [MenuEntry.action dockAction]
          nextHandle := self.nextHandle + 2 })

/-- Embeds `AtomToolsMainWindow::RemoveDockWidget`. Deleting the action also takes it
out of the menu it was added to. -/
def RemoveDockWidget (self : AtomToolsMainWindow) (name : String) : AtomToolsMainWindow :=
  let self1 :=
    match self.m_dockWidgets.lookup name with
    | some _ => { self with m_dockWidgets := self.m_dockWidgets.erase name }
    | none => self
  match self1.m_dockActions.lookup name with
  | some dockAction =>
    { self1 with
      m_dockActions := self1.m_dockActions.erase name
      m_menuView := self1.m_menuView.filter (fun e => !e.isAction dockAction.handle) }
  | none => self1

/-- Embeds `AtomToolsMainWindow::SetDockWidgetVisible`. -/
def SetDockWidgetVisible (self : AtomToolsMainWindow) (name : String) (visible : Bool) :
    AtomToolsMainWindow :=
  match self.m_dockWidgets.lookup name with
  | some dockWidget =>
    { self with m_dockWidgets := self.m_dockWidgets.replace name (dockWidget.setVisible visible) }
  | none => self

/-- Embeds `AtomToolsMainWindow::IsDockWidgetVisible`. -/
def IsDockWidgetVisible (self : AtomToolsMainWindow) (name : String) : Bool :=
  match self.m_dockWidgets.lookup name with
  | some dockWidget => dockWidget.isVisible self.visible
  | none => false

/-- The handler `AddDockWidget` connects to the View menu action of `name`:
`SetDockWidgetVisible(name, !IsDockWidgetVisible(name))`. -/
def dockActionTriggered (self : AtomToolsMainWindow) (name : String) : AtomToolsMainWindow :=
  self.SetDockWidgetVisible name (!self.IsDockWidgetVisible name)

/-- Embeds `AtomToolsMainWindow::GetDockWidgetNames`: the keys pushed in iteration order. -/
def GetDockWidgetNames (self : AtomToolsMainWindow) : List String :=
  self.m_dockWidgets.entries.foldl (fun names dockWidgetPair => names ++ [dockWidgetPair.1]) []

/-- Embeds `QWidget::setVisible` on the main window itself: `show()` in
`AtomToolsMainWindow::ActivateWindow` makes the window visible, an accepted
close hides it. The hidden state of the dock containers is kept; the layout
that the first `showEvent` restores from the settings acts on them like
further `SetDockWidgetVisible` calls. -/
def setVisible (self : AtomToolsMainWindow) (visible : Bool) : AtomToolsMainWindow :=
  { self with visible := visible }

/-- The View menu part of `AtomToolsMainWindow::AddCommonMenus`. -/
def AddCommonMenus (self : AtomToolsMainWindow) : AtomToolsMainWindow :=
  { self with
    m_menuView :=
      self.m_menuView ++
        [MenuEntry.action
            { handle := self.nextHandle, text := "Default Layout", checkable := false,
              checked := false },
          MenuEntry.separator]
    nextHandle := self.nextHandle + 1 }

/-- The main window before the constructor body runs. -/
def blank : AtomToolsMainWindow :=
  { m_dockWidgets := ∅
    m_dockActions := ∅
    m_menuView := []
    visible := false
    nextHandle := 0 }

/-- The constructor `AtomToolsMainWindow::AtomToolsMainWindow`: common menus, the two
built-in dock widgets (each wrapping a freshly allocated widget) and the
hidden Python terminal. The constructor does not show the window. -/
def construct : AtomToolsMainWindow :=
  let self := AddCommonMenus blank
  let m_assetBrowser := self.nextHandle
  let self := { self with nextHandle := self.nextHandle + 1 }
  let self := (self.AddDockWidget "Asset Browser" (some m_assetBrowser)
    Qt.BottomDockWidgetArea Qt.Horizontal).2
  let scriptTermDialog := self.nextHandle
  let self := { self with nextHandle := self.nextHandle + 1 }
  let self := (self.AddDockWidget "Python Terminal" (some scriptTermDialog)
    Qt.BottomDockWidgetArea Qt.Horizontal).2
  self.SetDockWidgetVisible "Python Terminal" false

/-- The states a main window can be in: the constructed window, followed by any
calls of the dock functions, any uses of the View menu toggles and any
showing or hiding of the window. -/
inductive Reachable : AtomToolsMainWindow → Prop
  | construct : Reachable construct
  | addDockWidget {s : AtomToolsMainWindow} (name : String) (widget : Option Nat)
      (area orientation : Nat) :
      Reachable s → Reachable (s.AddDockWidget name widget area orientation).2
  | removeDockWidget {s : AtomToolsMainWindow} (name : String) :
      Reachable s → Reachable (s.RemoveDockWidget name)
  | setDockWidgetVisible {s : AtomToolsMainWindow} (name : String) (visible : Bool) :
      Reachable s → Reachable (s.SetDockWidgetVisible name visible)
  | dockActionTriggered {s : AtomToolsMainWindow} (name : String) :
      Reachable s → Reachable (s.dockActionTriggered name)
  | setVisible {s : AtomToolsMainWindow} (visible : Bool) :
      Reachable s → Reachable (s.setVisible visible)

end AtomToolsMainWindow

end AtomToolsFramework

namespace MaterialEditor

/-- Modelled from the spec: the enumeration `AZ::Render::DisplayMapperOperationType`
is declared outside the given sources; the specification calls it "a fixed
enumerated set of operator choices" Reinhard, GammaSRGB, Passthrough, AcesLut
and Aces, which are also the five members the constructor names. -/
inductive DisplayMapperOperationType where
  | Reinhard
  | GammaSRGB
  | Passthrough
  | AcesLut
  | Aces
  deriving DecidableEq, Repr

/-- An `AZ::Data::AssetId`. -/
structure AssetId where
  guid : Nat
  subId : Nat
  deriving DecidableEq, Repr

/-- An `AtomToolsFramework::AssetSelectionComboBox`, reduced to its current selection. -/
structure AssetSelectionComboBox where
  selected : Option AssetId
  deriving DecidableEq, Repr

/-- Modelled from the spec: `AssetSelectionComboBox::SelectAsset` is defined outside
the given sources; the specification says the refresh "updates every
toggle/selection widget to match" the external settings with "no side effects
beyond UI state", so selecting an asset makes it the current selection and
does nothing else. -/
def AssetSelectionComboBox.SelectAsset (self : AssetSelectionComboBox) (assetId : AssetId) :
    AssetSelectionComboBox :=
  { self with selected := some assetId }

/-- The state of the viewport settings service behind `MaterialViewportSettingsRequestBus`,
as far as the toolbar reads it. -/
structure MaterialViewportRequests where
  gridEnabled : Bool
  shadowCatcherEnabled : Bool
  alternateSkyboxEnabled : Bool
  lastLightingPresetAssetId : AssetId
  lastModelPresetAssetId : AssetId
  displayMapperOperationType : DisplayMapperOperationType
  deriving DecidableEq, Repr

namespace MaterialViewportRequests

/-- Embeds `GetGridEnabled`: the value read and the service after the call. -/
def GetGridEnabled (self : MaterialViewportRequests) : Bool × MaterialViewportRequests :=
  (self.gridEnabled, self)

/-- Embeds `GetShadowCatcherEnabled`: the value read and the service after the call. -/
def GetShadowCatcherEnabled (self : MaterialViewportRequests) : Bool × MaterialViewportRequests :=
  (self.shadowCatcherEnabled, self)

/-- Embeds `GetAlternateSkyboxEnabled`: the value read and the service after the call. -/
def GetAlternateSkyboxEnabled (self : MaterialViewportRequests) :
    Bool × MaterialViewportRequests :=
  (self.alternateSkyboxEnabled, self)

/-- Embeds `GetLastLightingPresetAssetId`: the value read and the service after the call. -/
def GetLastLightingPresetAssetId (self : MaterialViewportRequests) :
    AssetId × MaterialViewportRequests :=
  (self.lastLightingPresetAssetId, self)

/-- Embeds `GetLastModelPresetAssetId`: the value read and the service after the call. -/
def GetLastModelPresetAssetId (self : MaterialViewportRequests) :
    AssetId × MaterialViewportRequests :=
  (self.lastModelPresetAssetId, self)

/-- Embeds `GetDisplayMapperOperationType`: the value read and the service after the call. -/
def GetDisplayMapperOperationType (self : MaterialViewportRequests) :
    DisplayMapperOperationType × MaterialViewportRequests :=
  (self.displayMapperOperationType, self)

end MaterialViewportRequests

/-- The members of `MaterialEditorToolBar`. `toneMappingMenu` lists the handles of the
actions added to the tone mapping menu and `nextHandle` is the next address
`new` returns. -/
structure MaterialEditorToolBar where
  m_toggleGrid : QAction
  m_toggleShadowCatcher : QAction
  m_toggleAlternateSkybox : QAction
  m_operationNames : AList (fun _ : DisplayMapperOperationType => String)
  m_operationActions : AList (fun _ : DisplayMapperOperationType => QAction)
  m_lightingPresetComboBox : AssetSelectionComboBox
  m_modelPresetComboBox : AssetSelectionComboBox
  toneMappingMenu : List Nat
  nextHandle : Nat
  deriving DecidableEq

namespace MaterialEditorToolBar

/-- The table assigned to `m_operationNames` in the constructor. -/
def operationNames : AList (fun _ : DisplayMapperOperationType => String) :=
  List.toAList
    [⟨DisplayMapperOperationType.Reinhard, "Reinhard"⟩,
      ⟨DisplayMapperOperationType.GammaSRGB, "GammaSRGB"⟩,
      ⟨DisplayMapperOperationType.Passthrough, "Passthrough"⟩,
      ⟨DisplayMapperOperationType.AcesLut, "AcesLut"⟩,
      ⟨DisplayMapperOperationType.Aces, "Aces"⟩]

/-- One pass of the loop in `OnViewportSettingsChanged`:
`m_operationActions[operation]->setChecked(operation == current)`. Indexing an
operation without an action yields a null pointer, and the call through it
fails (`none`). -/
def setOperationChecked (current : DisplayMapperOperationType)
    (actions : AList (fun _ : DisplayMapperOperationType => QAction))
    (operationNamePair : Sigma (fun _ : DisplayMapperOperationType => String)) :
    Option (AList (fun _ : DisplayMapperOperationType => QAction)) :=
  match actions.lookup operationNamePair.1 with
  | some action =>
    some (actions.replace operationNamePair.1
      (action.setChecked (decide (operationNamePair.1 = current))))
  | none => none

/-- Embeds `MaterialEditorToolBar::OnViewportSettingsChanged`, with the viewport settings
service connected to the bus: the refreshed toolbar and the service after the
calls, or `none` when a null action pointer is used. -/
def OnViewportSettingsChanged (self : MaterialEditorToolBar)
    (viewportRequests : MaterialViewportRequests) :
    Option (MaterialEditorToolBar × MaterialViewportRequests) :=
  let (gridEnabled, viewportRequests) := viewportRequests.GetGridEnabled
  let self := { self with m_toggleGrid := self.m_toggleGrid.setChecked gridEnabled }
  let (shadowCatcherEnabled, viewportRequests) := viewportRequests.GetShadowCatcherEnabled
  let self :=
    { self with m_toggleShadowCatcher := self.m_toggleShadowCatcher.setChecked shadowCatcherEnabled }
  let (alternateSkyboxEnabled, viewportRequests) := viewportRequests.GetAlternateSkyboxEnabled
  let self :=
    { self with
      m_toggleAlternateSkybox := self.m_toggleAlternateSkybox.setChecked alternateSkyboxEnabled }
  let (lightingPreset, viewportRequests) := viewportRequests.GetLastLightingPresetAssetId
  let self :=
    { self with
      m_lightingPresetComboBox := self.m_lightingPresetComboBox.SelectAsset lightingPreset }
  let (modelPreset, viewportRequests) := viewportRequests.GetLastModelPresetAssetId
  let self :=
    { self with m_modelPresetComboBox := self.m_modelPresetComboBox.SelectAsset modelPreset }
  let (current, viewportRequests) := viewportRequests.GetDisplayMapperOperationType
  match self.m_operationNames.entries.foldlM (setOperationChecked current)
      self.m_operationActions with
  | some actions => some ({ self with m_operationActions := actions }, viewportRequests)
  | none => none

/-- A freshly created checkable toolbar action, as made by `addAction` followed by
`setCheckable(true)`. -/
def newCheckableAction (handle : Nat) (text : String) : QAction :=
  QAction.setCheckable { handle := handle, text := text, checkable := false, checked := false }
    true

/-- One pass of the constructor loop over `m_operationNames`: add a checkable
action for the operation to the tone mapping menu and register it. -/
def addOperationAction (self : MaterialEditorToolBar)
    (operationNamePair : Sigma (fun _ : DisplayMapperOperationType => String)) :
    MaterialEditorToolBar :=
  { self with
    m_operationActions :=
      self.m_operationActions.insert operationNamePair.1
        (newCheckableAction self.nextHandle operationNamePair.2)
    toneMappingMenu := self.toneMappingMenu ++ [self.nextHandle]
    nextHandle := self.nextHandle + 1 }

/-- The constructor `MaterialEditorToolBar::MaterialEditorToolBar` up to its final
call of `OnViewportSettingsChanged`: the three checkable toggles, the operation
table, one checkable menu action per operation and the two selection
widgets. -/
def beforeRefresh : MaterialEditorToolBar :=
  let self : MaterialEditorToolBar :=
    { m_toggleGrid := newCheckableAction 0 "Toggle Grid"
      m_toggleShadowCatcher := newCheckableAction 1 "Toggle Shadow Catcher"
      m_toggleAlternateSkybox := newCheckableAction 2 "Toggle Alternate Skybox"
      m_operationNames := operationNames
      m_operationActions := ∅
      m_lightingPresetComboBox := { selected := none }
      m_modelPresetComboBox := { selected := none }
      toneMappingMenu := []
      nextHandle := 3 }
  self.m_operationNames.entries.foldl addOperationAction self

/-- The constructor `MaterialEditorToolBar::MaterialEditorToolBar`, run while the
viewport settings service is in state `viewportRequests`. -/
def construct (viewportRequests : MaterialViewportRequests) :
    Option (MaterialEditorToolBar × MaterialViewportRequests) :=
  beforeRefresh.OnViewportSettingsChanged viewportRequests

/-- The toolbar the constructor yields for the service state `viewportRequests`. -/
def constructed (viewportRequests : MaterialViewportRequests) : MaterialEditorToolBar :=
  match construct viewportRequests with
  | some result => result.1
  | none => beforeRefresh

/-- What a click on a checkable action does to the action itself: Qt flips its
check state before the connected handler forwards the new state to the service. -/
def activate (action : QAction) : QAction :=
  action.setChecked (!action.isChecked)

/-- The states a toolbar can be in: the constructed toolbar, followed by any
refreshes from the service and any user activations of its actions and
selection widgets. -/
inductive Reachable : MaterialEditorToolBar → Prop
  | construct (viewportRequests viewportRequests1 : MaterialViewportRequests)
      (tb : MaterialEditorToolBar) :
      construct viewportRequests = some (tb, viewportRequests1) → Reachable tb
  | onViewportSettingsChanged {tb : MaterialEditorToolBar}
      (viewportRequests viewportRequests1 : MaterialViewportRequests)
      (tb1 : MaterialEditorToolBar) :
      Reachable tb → tb.OnViewportSettingsChanged viewportRequests = some (tb1, viewportRequests1) →
      Reachable tb1
  | activateGrid {tb : MaterialEditorToolBar} :
      Reachable tb → Reachable { tb with m_toggleGrid := activate tb.m_toggleGrid }
  | activateShadowCatcher {tb : MaterialEditorToolBar} :
      Reachable tb →
      Reachable { tb with m_toggleShadowCatcher := activate tb.m_toggleShadowCatcher }
  | activateAlternateSkybox {tb : MaterialEditorToolBar} :
      Reachable tb →
      Reachable { tb with m_toggleAlternateSkybox := activate tb.m_toggleAlternateSkybox }
  | activateOperation {tb : MaterialEditorToolBar} (operation : DisplayMapperOperationType)
      (action : QAction) :
      Reachable tb → tb.m_operationActions.lookup operation = some action →
      Reachable
        { tb with m_operationActions := tb.m_operationActions.replace operation (activate action) }
  | selectLightingPreset {tb : MaterialEditorToolBar} (selection : Option AssetId) :
      Reachable tb → Reachable { tb with m_lightingPresetComboBox := { selected := selection } }
  | selectModelPreset {tb : MaterialEditorToolBar} (selection : Option AssetId) :
      Reachable tb → Reachable { tb with m_modelPresetComboBox := { selected := selection } }

/-- The operations whose tone mapping action is checked. -/
def checkedOperations (self : MaterialEditorToolBar) : List DisplayMapperOperationType :=
  (self.m_operationActions.entries.filter (fun e => e.2.isChecked)).map (fun e => e.1)

/-- What the constructor sets up and no later call changes: the operation table is
the constructor's, every operation has a checkable action, and the three
toggles are checkable. -/
def WellFormed (self : MaterialEditorToolBar) : Prop :=
  self.m_operationNames = operationNames ∧
    (∀ operation, ∃ action,
      self.m_operationActions.lookup operation = some action ∧ action.checkable = true) ∧
    self.m_toggleGrid.checkable = true ∧
    self.m_toggleShadowCatcher.checkable = true ∧
    self.m_toggleAlternateSkybox.checkable = true

end MaterialEditorToolBar

end MaterialEditor

/-! ## Association list facts used below -/

section AListFacts

variable {α : Type} {V : Type} [DecidableEq α]

theorem kreplace_cons_eq (a : α) (b v : V) (tl : List (Sigma fun _ : α => V)) :
    List.kreplace a b (⟨a, v⟩ :: tl) = ⟨a, b⟩ :: tl := by
  unfold List.kreplace
  exact List.lookmap_cons_some _ tl (by simp)

theorem kreplace_cons_ne {a k : α} (h : a ≠ k) (b v : V) (tl : List (Sigma fun _ : α => V)) :
    List.kreplace a b (⟨k, v⟩ :: tl) = ⟨k, v⟩ :: List.kreplace a b tl := by
  unfold List.kreplace
  exact List.lookmap_cons_none _ tl (by simp [h])

theorem dlookup_kreplace_self (a : α) (b : V) (l : List (Sigma fun _ : α => V)) :
    List.dlookup a (List.kreplace a b l) = (List.dlookup a l).map (fun _ => b) := by
  induction l with
  | nil => rfl
  | cons hd tl ih =>
    obtain ⟨k, v⟩ := hd
    by_cases hk : a = k
    · subst hk
      rw [kreplace_cons_eq, List.dlookup_cons_eq, List.dlookup_cons_eq]
      rfl
    · rw [kreplace_cons_ne hk, List.dlookup_cons_ne _ _ hk, List.dlookup_cons_ne _ _ hk]
      exact ih

theorem dlookup_kreplace_ne {a a1 : α} (h : a ≠ a1) (b : V) (l : List (Sigma fun _ : α => V)) :
    List.dlookup a (List.kreplace a1 b l) = List.dlookup a l := by
  induction l with
  | nil => rfl
  | cons hd tl ih =>
    obtain ⟨k, v⟩ := hd
    by_cases hk : a1 = k
    · subst hk
      rw [kreplace_cons_eq, List.dlookup_cons_ne _ _ h, List.dlookup_cons_ne _ _ h]
    · rw [kreplace_cons_ne hk]
      by_cases hak : a = k
      · subst hak
        rw [List.dlookup_cons_eq, List.dlookup_cons_eq]
      · rw [List.dlookup_cons_ne _ _ hak, List.dlookup_cons_ne _ _ hak]
        exact ih

theorem alist_lookup_replace_self (a : α) (b : V) (s : AList fun _ : α => V) :
    (s.replace a b).lookup a = (s.lookup a).map (fun _ => b) :=
  dlookup_kreplace_self a b s.entries

theorem alist_lookup_replace_ne {a a1 : α} (h : a ≠ a1) (b : V) (s : AList fun _ : α => V) :
    (s.replace a1 b).lookup a = s.lookup a :=
  dlookup_kreplace_ne h b s.entries

theorem alist_replace_same {a : α} {b : V} {s : AList fun _ : α => V}
    (h : s.lookup a = some b) : s.replace a b = s := by
  apply AList.ext
  exact List.kreplace_self s.nodupKeys (AList.mem_lookup_iff.mp h)

theorem alist_erase_of_not_mem {a : α} {s : AList fun _ : α => V} (h : a ∉ s) :
    s.erase a = s := by
  apply AList.ext
  exact List.kerase_of_not_mem_keys h

omit [DecidableEq α] in
theorem foldl_push_keys (l : List (Sigma fun _ : α => V)) (acc : List α) :
    l.foldl (fun names p => names ++ [p.1]) acc = acc ++ l.keys := by
  induction l generalizing acc with
  | nil => simp [List.keys]
  | cons hd tl ih =>
    rw [List.foldl_cons, ih]
    simp [List.keys]

end AListFacts

namespace AtomToolsFramework

namespace AtomToolsMainWindow

/-! ## The dock registry -/

theorem getDockWidgetNames_eq_keys (s : AtomToolsMainWindow) :
    s.GetDockWidgetNames = s.m_dockWidgets.keys := by
  unfold GetDockWidgetNames
  rw [foldl_push_keys]
  rfl

theorem addDockWidget_of_registered (s : AtomToolsMainWindow) (name : String)
    (widget : Option Nat) (area orientation : Nat) (h : name ∈ s.m_dockWidgets) :
    s.AddDockWidget name widget area orientation = (false, s) := by
  have hs : (s.m_dockWidgets.lookup name).isSome = true := AList.lookup_isSome.mpr h
  simp [AddDockWidget, hs]

theorem addDockWidget_of_null (s : AtomToolsMainWindow) (name : String)
    (area orientation : Nat) :
    s.AddDockWidget name none area orientation = (false, s) := by
  simp [AddDockWidget]

theorem addDockWidget_of_fresh (s : AtomToolsMainWindow) (name : String) (w : Nat)
    (area orientation : Nat) (h : name ∉ s.m_dockWidgets) :
    s.AddDockWidget name (some w) area orientation =
      (true,
        { s with
          m_dockWidgets :=
            s.m_dockWidgets.insert name
              { handle := s.nextHandle
                title := name
                objectName := name ++ "_DockWidget"
                closable := true
                floatable := true
                movable := true
                widget :=
                  { handle := w
                    objectName := name ++ "_Widget"
                    windowTitle := name
                    minimumSize := (300, 300) }
                area := area
                orientation := orientation
                extent := 400
                hidden := s.visible }
          m_dockActions :=
            s.m_dockActions.insert name
              { handle := s.nextHandle + 1, text := name, checkable := false, checked := false }
          m_menuView :=
            s.m_menuView ++
              [MenuEntry.action
                { handle := s.nextHandle + 1, text := name, checkable := false,
                  checked := false }]
          nextHandle := s.nextHandle + 2 }) := by
  have hs : s.m_dockWidgets.lookup name = none := AList.lookup_eq_none.mpr h
  simp [AddDockWidget, hs]

theorem removeDockWidget_dockWidgets (s : AtomToolsMainWindow) (name : String) :
    (s.RemoveDockWidget name).m_dockWidgets = s.m_dockWidgets.erase name := by
  unfold RemoveDockWidget
  cases hw : s.m_dockWidgets.lookup name with
  | none =>
    have hne : name ∉ s.m_dockWidgets := AList.lookup_eq_none.mp hw
    rw [alist_erase_of_not_mem hne]
    dsimp only
    split <;> rfl
  | some d =>
    dsimp only
    split <;> rfl

theorem removeDockWidget_visible (s : AtomToolsMainWindow) (name : String) :
    (s.RemoveDockWidget name).visible = s.visible := by
  unfold RemoveDockWidget
  cases s.m_dockWidgets.lookup name <;> dsimp only <;> split <;> rfl

theorem removeDockWidget_dockActions (s : AtomToolsMainWindow) (name : String) :
    (s.RemoveDockWidget name).m_dockActions = s.m_dockActions.erase name := by
  unfold RemoveDockWidget
  have hkeep : ∀ t : AtomToolsMainWindow, t.m_dockActions = s.m_dockActions →
      (match t.m_dockActions.lookup name with
        | some dockAction =>
          { t with
            m_dockActions := t.m_dockActions.erase name
            m_menuView := t.m_menuView.filter (fun e => !e.isAction dockAction.handle) }
        | none => t).m_dockActions = s.m_dockActions.erase name := by
    intro t ht
    cases ha : t.m_dockActions.lookup name with
    | none =>
      have hne : name ∉ t.m_dockActions := AList.lookup_eq_none.mp ha
      dsimp only
      rw [← ht, alist_erase_of_not_mem hne]
    | some a =>
      dsimp only
      rw [ht]
  apply hkeep
  cases s.m_dockWidgets.lookup name <;> rfl

/-- The class invariant of the two registries: they hold the same names. -/
theorem sameNames_addDockWidget (s : AtomToolsMainWindow) (name : String) (widget : Option Nat)
    (area orientation : Nat) (h : ∀ n, n ∈ s.m_dockWidgets ↔ n ∈ s.m_dockActions) :
    ∀ n, n ∈ (s.AddDockWidget name widget area orientation).2.m_dockWidgets ↔
      n ∈ (s.AddDockWidget name widget area orientation).2.m_dockActions := by
  intro n
  by_cases hreg : name ∈ s.m_dockWidgets
  · rw [addDockWidget_of_registered s name widget area orientation hreg]
    exact h n
  · cases widget with
    | none =>
      rw [addDockWidget_of_null]
      exact h n
    | some w =>
      rw [addDockWidget_of_fresh s name w area orientation hreg]
      simp only [AList.mem_insert, h n]

theorem sameNames_removeDockWidget (s : AtomToolsMainWindow) (name : String)
    (h : ∀ n, n ∈ s.m_dockWidgets ↔ n ∈ s.m_dockActions) :
    ∀ n, n ∈ (s.RemoveDockWidget name).m_dockWidgets ↔
      n ∈ (s.RemoveDockWidget name).m_dockActions := by
  intro n
  rw [removeDockWidget_dockWidgets, removeDockWidget_dockActions]
  simp only [AList.mem_erase, h n]

theorem setDockWidgetVisible_dockActions (s : AtomToolsMainWindow) (name : String)
    (visible : Bool) : (s.SetDockWidgetVisible name visible).m_dockActions = s.m_dockActions := by
  unfold SetDockWidgetVisible
  cases s.m_dockWidgets.lookup name <;> rfl

theorem setDockWidgetVisible_keys (s : AtomToolsMainWindow) (name : String) (visible : Bool) :
    (s.SetDockWidgetVisible name visible).m_dockWidgets.keys = s.m_dockWidgets.keys := by
  unfold SetDockWidgetVisible
  cases s.m_dockWidgets.lookup name with
  | none => rfl
  | some d => exact AList.keys_replace _ _ _

theorem sameNames_setDockWidgetVisible (s : AtomToolsMainWindow) (name : String)
    (visible : Bool) (h : ∀ n, n ∈ s.m_dockWidgets ↔ n ∈ s.m_dockActions) :
    ∀ n, n ∈ (s.SetDockWidgetVisible name visible).m_dockWidgets ↔
      n ∈ (s.SetDockWidgetVisible name visible).m_dockActions := by
  intro n
  rw [setDockWidgetVisible_dockActions, AList.mem_keys, setDockWidgetVisible_keys,
    ← AList.mem_keys]
  exact h n

theorem sameNames_construct :
    ∀ n, n ∈ construct.m_dockWidgets ↔ n ∈ construct.m_dockActions := by
  unfold construct
  apply sameNames_setDockWidgetVisible
  apply sameNames_addDockWidget
  apply sameNames_addDockWidget
  intro n
  simp [AddCommonMenus, blank]

theorem sameNames_of_reachable {s : AtomToolsMainWindow} (h : Reachable s) :
    ∀ n, n ∈ s.m_dockWidgets ↔ n ∈ s.m_dockActions := by
  induction h with
  | construct => exact sameNames_construct
  | addDockWidget name widget area orientation _ ih =>
    exact sameNames_addDockWidget _ name widget area orientation ih
  | removeDockWidget name _ ih => exact sameNames_removeDockWidget _ name ih
  | setDockWidgetVisible name visible _ ih => exact sameNames_setDockWidgetVisible _ name visible ih
  | dockActionTriggered name _ ih => exact sameNames_setDockWidgetVisible _ name _ ih
  | setVisible visible _ ih => exact ih

/-! ## The claims about the dock registry -/

/-- C1: whenever `name` is already registered or `widget` is null, `AddDockWidget`
returns false and leaves the window unchanged; in particular the registered
names are the same and every name is still mapped to the same dock container
and the same menu toggle action. -/
theorem addDockWidget_rejects (s : AtomToolsMainWindow) (name : String) (widget : Option Nat)
    (area orientation : Nat) (h : name ∈ s.m_dockWidgets ∨ widget = none) :
    (s.AddDockWidget name widget area orientation).1 = false ∧
      (s.AddDockWidget name widget area orientation).2 = s ∧
      (s.AddDockWidget name widget area orientation).2.GetDockWidgetNames =
        s.GetDockWidgetNames ∧
      ∀ n,
        (s.AddDockWidget name widget area orientation).2.m_dockWidgets.lookup n =
            s.m_dockWidgets.lookup n ∧
          (s.AddDockWidget name widget area orientation).2.m_dockActions.lookup n =
            s.m_dockActions.lookup n := by
  have key : s.AddDockWidget name widget area orientation = (false, s) := by
    rcases h with h | h
    · exact addDockWidget_of_registered s name widget area orientation h
    · subst h
      exact addDockWidget_of_null s name area orientation
  rw [key]
  exact ⟨rfl, rfl, rfl, fun _ => ⟨rfl, rfl⟩⟩

/-- Witness for C1: a second "Asset Browser" is rejected by the constructed window. -/
theorem addDockWidget_rejects_witness :
    ("Asset Browser" ∈ construct.m_dockWidgets ∨ (some 9 : Option Nat) = none) ∧
      (construct.AddDockWidget "Asset Browser" (some 9) 8 1).1 = false ∧
      (construct.AddDockWidget "Asset Browser" (some 9) 8 1).2 = construct :=
  ⟨Or.inl (by decide),
    (addDockWidget_rejects construct "Asset Browser" (some 9) 8 1
      (Or.inl (by decide))).1,
    (addDockWidget_rejects construct "Asset Browser" (some 9) 8 1
      (Or.inl (by decide))).2.1⟩

/-- C2: for a name that is not registered and a non-null widget, `AddDockWidget`
returns true; afterwards the name has a dock container and a menu toggle
action (which is also an entry of the View menu), `GetDockWidgetNames` lists
the name exactly once, and every previously registered name is still
registered with the same container and the same action. -/
theorem addDockWidget_registers (s : AtomToolsMainWindow) (name : String) (w : Nat)
    (area orientation : Nat) (h : name ∉ s.m_dockWidgets) :
    (s.AddDockWidget name (some w) area orientation).1 = true ∧
      (∃ dockWidget dockAction,
        (s.AddDockWidget name (some w) area orientation).2.m_dockWidgets.lookup name =
            some dockWidget ∧
          (s.AddDockWidget name (some w) area orientation).2.m_dockActions.lookup name =
            some dockAction ∧
          MenuEntry.action dockAction ∈
            (s.AddDockWidget name (some w) area orientation).2.m_menuView) ∧
      (s.AddDockWidget name (some w) area orientation).2.GetDockWidgetNames.count name = 1 ∧
      ∀ n, n ∈ s.m_dockWidgets →
        n ∈ (s.AddDockWidget name (some w) area orientation).2.GetDockWidgetNames ∧
          (s.AddDockWidget name (some w) area orientation).2.m_dockWidgets.lookup n =
            s.m_dockWidgets.lookup n ∧
          (s.AddDockWidget name (some w) area orientation).2.m_dockActions.lookup n =
            s.m_dockActions.lookup n := by
  rw [addDockWidget_of_fresh s name w area orientation h]
  refine ⟨rfl, ⟨_, _, AList.lookup_insert _, AList.lookup_insert _, ?_⟩, ?_, ?_⟩
  · simp
  · rw [getDockWidgetNames_eq_keys]
    apply List.count_eq_one_of_mem (AList.keys_nodup _)
    rw [← AList.mem_keys]
    exact (AList.mem_insert _).mpr (Or.inl rfl)
  · intro n hn
    have hne : n ≠ name := fun e => h (e ▸ hn)
    refine ⟨?_, AList.lookup_insert_ne hne, AList.lookup_insert_ne hne⟩
    rw [getDockWidgetNames_eq_keys, ← AList.mem_keys]
    exact (AList.mem_insert _).mpr (Or.inr hn)

/-- Witness for C2: adding "Inspector" to the constructed window. -/
theorem addDockWidget_registers_witness :
    "Inspector" ∉ construct.m_dockWidgets ∧
      (construct.AddDockWidget "Inspector" (some 9) 2 1).1 = true ∧
      (construct.AddDockWidget "Inspector" (some 9) 2 1).2.GetDockWidgetNames.count
        "Inspector" = 1 :=
  ⟨by decide,
    (addDockWidget_registers construct "Inspector" 9 2 1 (by decide)).1,
    (addDockWidget_registers construct "Inspector" 9 2 1 (by decide)).2.2.1⟩

/-- C3: in every state a main window can be in, `RemoveDockWidget` of a name that
is not a registered dock widget name returns the very same state: the dock
container registry, the menu toggle action registry and everything else are
unchanged. -/
theorem removeDockWidget_absent_noop (s : AtomToolsMainWindow) (hs : Reachable s)
    (name : String) (h : name ∉ s.m_dockWidgets) :
    s.RemoveDockWidget name = s := by
  have ha : name ∉ s.m_dockActions := fun hmem => h ((sameNames_of_reachable hs name).mpr hmem)
  have hw : s.m_dockWidgets.lookup name = none := AList.lookup_eq_none.mpr h
  have hact : s.m_dockActions.lookup name = none := AList.lookup_eq_none.mpr ha
  simp [RemoveDockWidget, hw, hact]

/-- Witness for C3: removing "Inspector" from the constructed window. -/
theorem removeDockWidget_absent_noop_witness :
    "Inspector" ∉ construct.m_dockWidgets ∧
      construct.RemoveDockWidget "Inspector" = construct :=
  ⟨by decide,
    removeDockWidget_absent_noop construct (Reachable.construct) "Inspector"
      (by decide)⟩

/-- C4: `RemoveDockWidget` of a registered name releases its dock container and its
menu toggle action: the name is in neither registry and the action is no
longer a View menu entry, `GetDockWidgetNames` does not list the name,
`IsDockWidgetVisible` is false for it, every other name keeps its container,
action and visibility, and `AddDockWidget` of the name with a non-null widget
then returns true. -/
theorem removeDockWidget_releases (s : AtomToolsMainWindow) (name : String)
    (h : name ∈ s.m_dockWidgets) :
    name ∉ (s.RemoveDockWidget name).m_dockWidgets ∧
      name ∉ (s.RemoveDockWidget name).m_dockActions ∧
      (∀ dockAction, s.m_dockActions.lookup name = some dockAction →
        MenuEntry.action dockAction ∉ (s.RemoveDockWidget name).m_menuView) ∧
      name ∉ (s.RemoveDockWidget name).GetDockWidgetNames ∧
      (s.RemoveDockWidget name).IsDockWidgetVisible name = false ∧
      (∀ n, n ≠ name →
        (n ∈ (s.RemoveDockWidget name).GetDockWidgetNames ↔ n ∈ s.GetDockWidgetNames) ∧
          (s.RemoveDockWidget name).m_dockWidgets.lookup n = s.m_dockWidgets.lookup n ∧
          (s.RemoveDockWidget name).m_dockActions.lookup n = s.m_dockActions.lookup n ∧
          (s.RemoveDockWidget name).IsDockWidgetVisible n = s.IsDockWidgetVisible n) ∧
      ∀ (w area orientation : Nat),
        ((s.RemoveDockWidget name).AddDockWidget name (some w) area orientation).1 = true := by
  have hgone : name ∉ (s.RemoveDockWidget name).m_dockWidgets := by
    rw [removeDockWidget_dockWidgets]
    exact fun hmem => ((AList.mem_erase).mp hmem).1 rfl
  have hnone : (s.RemoveDockWidget name).m_dockWidgets.lookup name = none :=
    AList.lookup_eq_none.mpr hgone
  refine ⟨hgone, ?_, ?_, ?_, ?_, ?_, ?_⟩
  · rw [removeDockWidget_dockActions]
    exact fun hmem => ((AList.mem_erase).mp hmem).1 rfl
  · intro dockAction ha
    have hw : ∃ d, s.m_dockWidgets.lookup name = some d :=
      Option.isSome_iff_exists.mp (AList.lookup_isSome.mpr h)
    obtain ⟨d, hd⟩ := hw
    simp [RemoveDockWidget, hd, ha, MenuEntry.isAction]
  · rw [getDockWidgetNames_eq_keys, ← AList.mem_keys]
    exact hgone
  · simp [IsDockWidgetVisible, hnone]
  · intro n hn
    have hlw : (s.RemoveDockWidget name).m_dockWidgets.lookup n = s.m_dockWidgets.lookup n := by
      rw [removeDockWidget_dockWidgets]
      exact AList.lookup_erase_ne hn
    refine ⟨?_, hlw, ?_, ?_⟩
    · rw [getDockWidgetNames_eq_keys, getDockWidgetNames_eq_keys, ← AList.mem_keys,
        ← AList.mem_keys, removeDockWidget_dockWidgets, AList.mem_erase]
      exact ⟨fun hmem => hmem.2, fun hmem => ⟨hn, hmem⟩⟩
    · rw [removeDockWidget_dockActions]
      exact AList.lookup_erase_ne hn
    · simp only [IsDockWidgetVisible, hlw, removeDockWidget_visible]
  · intro w area orientation
    rw [addDockWidget_of_fresh _ name w area orientation hgone]

/-- Witness for C4: removing "Asset Browser" from the constructed window. -/
theorem removeDockWidget_releases_witness :
    "Asset Browser" ∈ construct.m_dockWidgets ∧
      "Asset Browser" ∉ (construct.RemoveDockWidget "Asset Browser").m_dockWidgets ∧
      "Asset Browser" ∉ (construct.RemoveDockWidget "Asset Browser").m_dockActions :=
  ⟨by decide,
    (removeDockWidget_releases construct "Asset Browser" (by decide)).1,
    (removeDockWidget_releases construct "Asset Browser" (by decide)).2.1⟩

/-- C5, as stated, fails: on the constructed main window, which has not been shown,
`SetDockWidgetVisible("Python Terminal", true)` followed by
`IsDockWidgetVisible("Python Terminal")` returns false although the name is
registered. -/
theorem setDockWidgetVisible_unshown_window :
    "Python Terminal" ∈ construct.m_dockWidgets ∧
      (construct.SetDockWidgetVisible "Python Terminal" true).IsDockWidgetVisible
        "Python Terminal" = false ∧
      (construct.SetDockWidgetVisible "Python Terminal" true).IsDockWidgetVisible
        "Python Terminal" ≠ true := by
  decide

/-- C5, amended: for a registered name, `SetDockWidgetVisible(name, v)` followed by
`IsDockWidgetVisible(name)` returns `v` when the main window itself is
visible and false when it is not (so `v = false` always reads back); the
visibility of every other dock widget, the visibility of the main window and
the registered names are unchanged. -/
theorem setDockWidgetVisible_then_isDockWidgetVisible (s : AtomToolsMainWindow)
    (name : String) (v : Bool) (h : name ∈ s.m_dockWidgets) :
    (s.visible = true → (s.SetDockWidgetVisible name v).IsDockWidgetVisible name = v) ∧
      (s.visible = false → (s.SetDockWidgetVisible name v).IsDockWidgetVisible name = false) ∧
      (v = false → (s.SetDockWidgetVisible name v).IsDockWidgetVisible name = false) ∧
      (∀ n, n ≠ name →
        (s.SetDockWidgetVisible name v).IsDockWidgetVisible n = s.IsDockWidgetVisible n) ∧
      (s.SetDockWidgetVisible name v).visible = s.visible ∧
      (s.SetDockWidgetVisible name v).GetDockWidgetNames = s.GetDockWidgetNames := by
  obtain ⟨d, hd⟩ := Option.isSome_iff_exists.mp (AList.lookup_isSome.mpr h)
  have hread : (s.SetDockWidgetVisible name v).IsDockWidgetVisible name = (v && s.visible) := by
    simp [SetDockWidgetVisible, IsDockWidgetVisible, hd, alist_lookup_replace_self,
      StyledDockWidget.setVisible, StyledDockWidget.isVisible]
  refine ⟨?_, ?_, ?_, ?_, ?_, ?_⟩
  · intro hv
    rw [hread, hv, Bool.and_true]
  · intro hv
    rw [hread, hv, Bool.and_false]
  · intro hv
    rw [hread, hv, Bool.false_and]
  · intro n hn
    simp [SetDockWidgetVisible, IsDockWidgetVisible, hd, alist_lookup_replace_ne hn]
  · simp [SetDockWidgetVisible, hd]
  · rw [getDockWidgetNames_eq_keys, getDockWidgetNames_eq_keys, setDockWidgetVisible_keys]

/-- Witness for amended C5: once the constructed window is shown, showing the Python
terminal reads back true and hiding it reads back false. -/
theorem setDockWidgetVisible_then_isDockWidgetVisible_witness :
    "Python Terminal" ∈ (construct.setVisible true).m_dockWidgets ∧
      (construct.setVisible true).visible = true ∧
      ((construct.setVisible true).SetDockWidgetVisible "Python Terminal"
        true).IsDockWidgetVisible "Python Terminal" = true ∧
      ((construct.setVisible true).SetDockWidgetVisible "Python Terminal"
        false).IsDockWidgetVisible "Python Terminal" = false :=
  ⟨by decide, rfl,
    (setDockWidgetVisible_then_isDockWidgetVisible (construct.setVisible true)
      "Python Terminal" true (by decide)).1 rfl,
    (setDockWidgetVisible_then_isDockWidgetVisible (construct.setVisible true)
      "Python Terminal" false (by decide)).2.2.1 rfl⟩

/-- C9: for a name that is not registered, `SetDockWidgetVisible(name, v)` leaves the
window unchanged for both values of `v`, and `IsDockWidgetVisible(name)` is
false. -/
theorem setDockWidgetVisible_unknown (s : AtomToolsMainWindow) (name : String)
    (h : name ∉ s.m_dockWidgets) :
    (∀ v, s.SetDockWidgetVisible name v = s) ∧ s.IsDockWidgetVisible name = false := by
  have hw : s.m_dockWidgets.lookup name = none := AList.lookup_eq_none.mpr h
  constructor
  · intro v
    simp [SetDockWidgetVisible, hw]
  · simp [IsDockWidgetVisible, hw]

/-- Witness for C9: "Inspector" is unknown to the constructed window. -/
theorem setDockWidgetVisible_unknown_witness :
    "Inspector" ∉ construct.m_dockWidgets ∧
      (∀ v, construct.SetDockWidgetVisible "Inspector" v = construct) ∧
      construct.IsDockWidgetVisible "Inspector" = false :=
  ⟨by decide, setDockWidgetVisible_unknown construct "Inspector" (by decide)⟩

/-- C10: in every state reachable from the constructed main window by
`AddDockWidget`, `RemoveDockWidget` and `SetDockWidgetVisible` calls (and
showing or hiding the window), the dock container registry and the menu toggle action
registry hold exactly the same names. -/
theorem registries_same_names (s : AtomToolsMainWindow) (hs : Reachable s) (name : String) :
    (name ∈ s.m_dockWidgets ↔ name ∈ s.m_dockActions) ∧
      (name ∉ s.m_dockWidgets ↔ name ∉ s.m_dockActions) :=
  ⟨sameNames_of_reachable hs name, not_congr (sameNames_of_reachable hs name)⟩

/-- Witness for C10: the window after adding and removing a dock widget. -/
theorem registries_same_names_witness :
    ("Inspector" ∈
        ((construct.AddDockWidget "Inspector" (some 9) 2 1).2.RemoveDockWidget
          "Asset Browser").m_dockWidgets ↔
      "Inspector" ∈
        ((construct.AddDockWidget "Inspector" (some 9) 2 1).2.RemoveDockWidget
          "Asset Browser").m_dockActions) :=
  (registries_same_names _
    (Reachable.removeDockWidget "Asset Browser"
      (Reachable.addDockWidget "Inspector" (some 9) 2 1 (Reachable.construct)))
    "Inspector").1

end AtomToolsMainWindow

end AtomToolsFramework

/-! ## Check state of actions -/

theorem QAction.setChecked_setChecked (a : QAction) (b : Bool) :
    (a.setChecked b).setChecked b = a.setChecked b := by
  unfold QAction.setChecked
  cases h : a.checkable <;> simp [h]

theorem QAction.checkable_setChecked (a : QAction) (b : Bool) :
    (a.setChecked b).checkable = a.checkable := by
  unfold QAction.setChecked
  cases h : a.checkable <;> simp [h]

theorem QAction.isChecked_setChecked (a : QAction) (b : Bool) (h : a.checkable = true) :
    (a.setChecked b).isChecked = b := by
  simp [QAction.setChecked, QAction.isChecked, h]

theorem filter_eq_singleton_of_nodup {α : Type} [DecidableEq α] (cur : α) :
    ∀ l : List α, l.Nodup → cur ∈ l → l.filter (fun x => decide (x = cur)) = [cur]
  | [], _, h => by simp at h
  | x :: t, hnd, hmem => by
    have hnd1 := List.nodup_cons.mp hnd
    by_cases hx : x = cur
    · subst hx
      have ht : t.filter (fun y => decide (y = x)) = [] := by
        rw [List.filter_eq_nil_iff]
        intro y hy
        have hne : y ≠ x := fun e => hnd1.1 (e ▸ hy)
        simp [hne]
      simp [List.filter_cons, ht]
    · have hcur : cur ∈ t := by
        rcases List.mem_cons.mp hmem with e | e
        · exact absurd e.symm hx
        · exact e
      simp [List.filter_cons, hx, filter_eq_singleton_of_nodup cur t hnd1.2 hcur]

namespace MaterialEditor

namespace MaterialEditorToolBar

/-! ## The tone mapping loop -/

theorem foldlM_setOperationChecked (current : DisplayMapperOperationType) :
    ∀ (ks : List (Sigma fun _ : DisplayMapperOperationType => String))
      (m : AList fun _ : DisplayMapperOperationType => QAction),
      (∀ k ∈ ks, k.1 ∈ m) →
      ∃ m1, ks.foldlM (setOperationChecked current) m = some m1 ∧ m1.keys = m.keys ∧
        ∀ operation, m1.lookup operation =
          (m.lookup operation).map
            (fun a => if operation ∈ ks.keys then a.setChecked (decide (operation = current))
              else a)
  | [], m, _ => by
    refine ⟨m, rfl, rfl, ?_⟩
    intro operation
    simp [List.keys]
  | k :: ks, m, hall => by
    have hk : k.1 ∈ m := hall k (List.mem_cons_self _ _)
    obtain ⟨a, ha⟩ := Option.isSome_iff_exists.mp (AList.lookup_isSome.mpr hk)
    have hstep : setOperationChecked current m k =
        some (m.replace k.1 (a.setChecked (decide (k.1 = current)))) := by
      simp [setOperationChecked, ha]
    have hall1 : ∀ k1 ∈ ks, k1.1 ∈ m.replace k.1 (a.setChecked (decide (k.1 = current))) := by
      intro k1 hk1
      exact AList.mem_replace.mpr (hall k1 (List.mem_cons_of_mem _ hk1))
    obtain ⟨m1, hm1, hkeys, hlook⟩ := foldlM_setOperationChecked current ks _ hall1
    refine ⟨m1, ?_, ?_, ?_⟩
    · rw [List.foldlM_cons, hstep]
      exact hm1
    · rw [hkeys, AList.keys_replace]
    · intro operation
      rw [hlook operation]
      by_cases hop : operation = k.1
      · subst hop
        rw [alist_lookup_replace_self, ha]
        have hhead : k.1 ∈ (k :: ks).keys := by simp [List.keys]
        simp only [Option.map_some', if_pos hhead]
        by_cases hin : k.1 ∈ ks.keys
        · rw [if_pos hin, QAction.setChecked_setChecked]
        · rw [if_neg hin]
      · rw [alist_lookup_replace_ne hop]
        have hiff : operation ∈ (k :: ks).keys ↔ operation ∈ ks.keys := by
          simp [List.keys, hop]
        simp only [hiff]

theorem foldlM_setOperationChecked_fixed (current : DisplayMapperOperationType)
    (m : AList fun _ : DisplayMapperOperationType => QAction) :
    ∀ (ks : List (Sigma fun _ : DisplayMapperOperationType => String)),
      (∀ k ∈ ks, ∃ a, m.lookup k.1 = some a ∧ a.setChecked (decide (k.1 = current)) = a) →
      ks.foldlM (setOperationChecked current) m = some m
  | [], _ => rfl
  | k :: ks, hall => by
    obtain ⟨a, ha, hfix⟩ := hall k (List.mem_cons_self _ _)
    have hstep : setOperationChecked current m k = some m := by
      simp [setOperationChecked, ha, hfix, alist_replace_same ha]
    rw [List.foldlM_cons, hstep]
    exact foldlM_setOperationChecked_fixed current m ks
      (fun k1 hk1 => hall k1 (List.mem_cons_of_mem _ hk1))

/-! ## The refresh -/

theorem mem_operationNames (operation : DisplayMapperOperationType) :
    operation ∈ operationNames.keys := by
  cases operation <;> decide

theorem onViewportSettingsChanged_eq (tb : MaterialEditorToolBar)
    (svc : MaterialViewportRequests)
    (h : ∀ k ∈ tb.m_operationNames.entries, k.1 ∈ tb.m_operationActions) :
    ∃ actions,
      tb.OnViewportSettingsChanged svc =
          some
            ({ tb with
                m_toggleGrid := tb.m_toggleGrid.setChecked svc.gridEnabled
                m_toggleShadowCatcher :=
                  tb.m_toggleShadowCatcher.setChecked svc.shadowCatcherEnabled
                m_toggleAlternateSkybox :=
                  tb.m_toggleAlternateSkybox.setChecked svc.alternateSkyboxEnabled
                m_lightingPresetComboBox :=
                  tb.m_lightingPresetComboBox.SelectAsset svc.lastLightingPresetAssetId
                m_modelPresetComboBox :=
                  tb.m_modelPresetComboBox.SelectAsset svc.lastModelPresetAssetId
                m_operationActions := actions },
              svc) ∧
        actions.keys = tb.m_operationActions.keys ∧
        ∀ operation, actions.lookup operation =
          (tb.m_operationActions.lookup operation).map
            (fun a =>
              if operation ∈ tb.m_operationNames.keys then
                a.setChecked (decide (operation = svc.displayMapperOperationType))
              else a) := by
  obtain ⟨actions, hfold, hkeys, hlook⟩ :=
    foldlM_setOperationChecked svc.displayMapperOperationType tb.m_operationNames.entries
      tb.m_operationActions h
  refine ⟨actions, ?_, hkeys, hlook⟩
  simp only [OnViewportSettingsChanged, MaterialViewportRequests.GetGridEnabled,
    MaterialViewportRequests.GetShadowCatcherEnabled,
    MaterialViewportRequests.GetAlternateSkyboxEnabled,
    MaterialViewportRequests.GetLastLightingPresetAssetId,
    MaterialViewportRequests.GetLastModelPresetAssetId,
    MaterialViewportRequests.GetDisplayMapperOperationType, hfold]

theorem onViewportSettingsChanged_spec (tb : MaterialEditorToolBar) (hwf : tb.WellFormed)
    (svc : MaterialViewportRequests) :
    ∃ tb1,
      tb.OnViewportSettingsChanged svc = some (tb1, svc) ∧
        tb1.WellFormed ∧
        tb1.OnViewportSettingsChanged svc = some (tb1, svc) ∧
        tb1.m_toggleGrid.isChecked = svc.gridEnabled ∧
        tb1.m_toggleShadowCatcher.isChecked = svc.shadowCatcherEnabled ∧
        tb1.m_toggleAlternateSkybox.isChecked = svc.alternateSkyboxEnabled ∧
        tb1.m_lightingPresetComboBox.selected = some svc.lastLightingPresetAssetId ∧
        tb1.m_modelPresetComboBox.selected = some svc.lastModelPresetAssetId ∧
        ∀ operation, ∃ action,
          tb1.m_operationActions.lookup operation = some action ∧
            action.isChecked = decide (operation = svc.displayMapperOperationType) := by
  obtain ⟨hnames, hacts, hgrid, hshadow, hsky⟩ := hwf
  have hpresent : ∀ k ∈ tb.m_operationNames.entries, k.1 ∈ tb.m_operationActions := by
    intro k _
    obtain ⟨a, ha, -⟩ := hacts k.1
    exact AList.lookup_isSome.mp (by rw [ha]; rfl)
  obtain ⟨actions, heq, -, hlook⟩ := onViewportSettingsChanged_eq tb svc hpresent
  have hlook1 : ∀ operation, ∃ a, tb.m_operationActions.lookup operation = some a ∧
      a.checkable = true ∧
      actions.lookup operation =
        some (a.setChecked (decide (operation = svc.displayMapperOperationType))) := by
    intro operation
    obtain ⟨a, ha, hc⟩ := hacts operation
    refine ⟨a, ha, hc, ?_⟩
    have hin : operation ∈ tb.m_operationNames.keys := by
      rw [hnames]
      exact mem_operationNames operation
    rw [hlook operation, ha, Option.map_some', if_pos hin]
  refine ⟨_, heq, ?_, ?_, ?_, ?_, ?_, rfl, rfl, ?_⟩
  · refine ⟨hnames, ?_, ?_, ?_, ?_⟩
    · intro operation
      obtain ⟨a, -, hc, hl⟩ := hlook1 operation
      exact ⟨_, hl, by rw [QAction.checkable_setChecked, hc]⟩
    · exact (QAction.checkable_setChecked _ _).trans hgrid
    · exact (QAction.checkable_setChecked _ _).trans hshadow
    · exact (QAction.checkable_setChecked _ _).trans hsky
  · have hpresent1 : ∀ k ∈ tb.m_operationNames.entries, k.1 ∈ actions := by
      intro k _
      obtain ⟨a, -, -, hl⟩ := hlook1 k.1
      exact AList.lookup_isSome.mp (by rw [hl]; rfl)
    have hfixed :
        tb.m_operationNames.entries.foldlM
            (setOperationChecked svc.displayMapperOperationType) actions = some actions := by
      apply foldlM_setOperationChecked_fixed
      intro k _
      obtain ⟨a, -, -, hl⟩ := hlook1 k.1
      exact ⟨_, hl, QAction.setChecked_setChecked _ _⟩
    simp only [OnViewportSettingsChanged, MaterialViewportRequests.GetGridEnabled,
      MaterialViewportRequests.GetShadowCatcherEnabled,
      MaterialViewportRequests.GetAlternateSkyboxEnabled,
      MaterialViewportRequests.GetLastLightingPresetAssetId,
      MaterialViewportRequests.GetLastModelPresetAssetId,
      MaterialViewportRequests.GetDisplayMapperOperationType, hfixed,
      QAction.setChecked_setChecked, AssetSelectionComboBox.SelectAsset]
  · exact QAction.isChecked_setChecked _ _ hgrid
  · exact QAction.isChecked_setChecked _ _ hshadow
  · exact QAction.isChecked_setChecked _ _ hsky
  · intro operation
    obtain ⟨a, -, hc, hl⟩ := hlook1 operation
    exact ⟨_, hl, QAction.isChecked_setChecked _ _ hc⟩

/-! ## Reachable toolbars -/

theorem wellFormed_beforeRefresh : beforeRefresh.WellFormed :=
  ⟨rfl, fun operation => by cases operation <;> exact ⟨_, rfl, rfl⟩, rfl, rfl, rfl⟩

theorem wellFormed_of_reachable {tb : MaterialEditorToolBar} (h : Reachable tb) :
    tb.WellFormed := by
  induction h with
  | construct svc svc1 tb hc =>
    obtain ⟨tb1, heq, hwf, -⟩ := onViewportSettingsChanged_spec _ wellFormed_beforeRefresh svc
    unfold construct at hc
    rw [heq] at hc
    cases hc
    exact hwf
  | onViewportSettingsChanged svc svc1 tb1 _ hc ih =>
    obtain ⟨tb2, heq, hwf, -⟩ := onViewportSettingsChanged_spec _ ih svc
    rw [heq] at hc
    cases hc
    exact hwf
  | activateGrid _ ih =>
    obtain ⟨hnames, hacts, hgrid, hshadow, hsky⟩ := ih
    exact ⟨hnames, hacts, (QAction.checkable_setChecked _ _).trans hgrid, hshadow, hsky⟩
  | activateShadowCatcher _ ih =>
    obtain ⟨hnames, hacts, hgrid, hshadow, hsky⟩ := ih
    exact ⟨hnames, hacts, hgrid, (QAction.checkable_setChecked _ _).trans hshadow, hsky⟩
  | activateAlternateSkybox _ ih =>
    obtain ⟨hnames, hacts, hgrid, hshadow, hsky⟩ := ih
    exact ⟨hnames, hacts, hgrid, hshadow, (QAction.checkable_setChecked _ _).trans hsky⟩
  | activateOperation operation action _ hl ih =>
    obtain ⟨hnames, hacts, hgrid, hshadow, hsky⟩ := ih
    refine ⟨hnames, ?_, hgrid, hshadow, hsky⟩
    intro operation1
    by_cases hop : operation1 = operation
    · subst hop
      obtain ⟨a, ha, hc⟩ := hacts operation1
      rw [hl] at ha
      cases ha
      refine ⟨activate action, ?_, ?_⟩
      · dsimp only
        rw [alist_lookup_replace_self, hl]
        rfl
      · exact (QAction.checkable_setChecked _ _).trans hc
    · obtain ⟨a, ha, hc⟩ := hacts operation1
      refine ⟨a, ?_, hc⟩
      dsimp only
      rw [alist_lookup_replace_ne hop, ha]
  | selectLightingPreset selection _ ih => exact ih
  | selectModelPreset selection _ ih => exact ih

theorem checkedOperations_eq (tb : MaterialEditorToolBar) (current : DisplayMapperOperationType)
    (h : ∀ operation, ∃ action,
      tb.m_operationActions.lookup operation = some action ∧
        action.isChecked = decide (operation = current)) :
    tb.checkedOperations = [current] := by
  unfold checkedOperations
  have hcongr : tb.m_operationActions.entries.filter (fun e => e.2.isChecked) =
      tb.m_operationActions.entries.filter (fun e => decide (e.1 = current)) := by
    apply List.filter_congr
    intro e he
    obtain ⟨k, v⟩ := e
    obtain ⟨a, ha, hc⟩ := h k
    have hv : tb.m_operationActions.lookup k = some v := AList.mem_lookup_iff.mpr he
    rw [ha] at hv
    cases hv
    exact hc
  have hmem : current ∈ tb.m_operationActions.keys := by
    obtain ⟨a, ha, -⟩ := h current
    exact AList.mem_keys.mp (AList.lookup_isSome.mp (by rw [ha]; rfl))
  have hmap : (tb.m_operationActions.entries.filter (fun e => decide (e.1 = current))).map
      (fun e => e.1) =
      (tb.m_operationActions.entries.map (fun e => e.1)).filter
        (fun x => decide (x = current)) := by
    rw [List.filter_map]
    rfl
  rw [hcongr, hmap]
  exact filter_eq_singleton_of_nodup current _ (AList.keys_nodup _) hmem

/-- C7: for every toolbar state and every state of the viewport settings service,
`OnViewportSettingsChanged` completes and afterwards each of the five tone
mapping operations has an action, the action of an operation is checked
exactly when the operation is the one the service reports, and so exactly
one tone mapping action is checked. -/
theorem onViewportSettingsChanged_checks_current (tb : MaterialEditorToolBar)
    (h : Reachable tb) (svc : MaterialViewportRequests) :
    ∃ tb1,
      tb.OnViewportSettingsChanged svc = some (tb1, svc) ∧
        tb1.checkedOperations = [svc.displayMapperOperationType] ∧
        ∀ operation, ∃ action,
          tb1.m_operationActions.lookup operation = some action ∧
            (action.isChecked = true ↔ operation = svc.displayMapperOperationType) := by
  obtain ⟨tb1, heq, -, -, -, -, -, -, -, hops⟩ :=
    onViewportSettingsChanged_spec tb (wellFormed_of_reachable h) svc
  refine ⟨tb1, heq, checkedOperations_eq tb1 _ hops, ?_⟩
  intro operation
  obtain ⟨a, ha, hc⟩ := hops operation
  exact ⟨a, ha, by rw [hc, decide_eq_true_iff]⟩

/-- Witness for C7: a toolbar constructed under AcesLut, refreshed under Reinhard. -/
theorem onViewportSettingsChanged_checks_current_witness :
    ∃ tb1,
      (constructed ⟨true, false, true, ⟨1, 2⟩, ⟨3, 4⟩,
            DisplayMapperOperationType.AcesLut⟩).OnViewportSettingsChanged
          ⟨false, false, true, ⟨1, 2⟩, ⟨5, 6⟩, DisplayMapperOperationType.Reinhard⟩ =
          some (tb1, ⟨false, false, true, ⟨1, 2⟩, ⟨5, 6⟩, DisplayMapperOperationType.Reinhard⟩) ∧
        tb1.checkedOperations = [DisplayMapperOperationType.Reinhard] := by
  obtain ⟨tb1, heq, hchecked, -⟩ :=
    onViewportSettingsChanged_checks_current
      (constructed ⟨true, false, true, ⟨1, 2⟩, ⟨3, 4⟩, DisplayMapperOperationType.AcesLut⟩)
      (Reachable.construct
        ⟨true, false, true, ⟨1, 2⟩, ⟨3, 4⟩, DisplayMapperOperationType.AcesLut⟩
        ⟨true, false, true, ⟨1, 2⟩, ⟨3, 4⟩, DisplayMapperOperationType.AcesLut⟩ _ rfl)
      ⟨false, false, true, ⟨1, 2⟩, ⟨5, 6⟩, DisplayMapperOperationType.Reinhard⟩
  exact ⟨tb1, heq, hchecked⟩

/-- C8: for every toolbar state and every state of the viewport settings service,
`OnViewportSettingsChanged` leaves the service as it was and yields a toolbar
whose grid, shadow catcher and alternate skybox toggles, two preset selections
and tone mapping checks equal the values of the service; calling it again
yields the same toolbar and the same service. -/
theorem onViewportSettingsChanged_idempotent (tb : MaterialEditorToolBar)
    (h : Reachable tb) (svc : MaterialViewportRequests) :
    ∃ tb1,
      tb.OnViewportSettingsChanged svc = some (tb1, svc) ∧
        tb1.OnViewportSettingsChanged svc = some (tb1, svc) ∧
        tb1.m_toggleGrid.isChecked = svc.gridEnabled ∧
        tb1.m_toggleShadowCatcher.isChecked = svc.shadowCatcherEnabled ∧
        tb1.m_toggleAlternateSkybox.isChecked = svc.alternateSkyboxEnabled ∧
        tb1.m_lightingPresetComboBox.selected = some svc.lastLightingPresetAssetId ∧
        tb1.m_modelPresetComboBox.selected = some svc.lastModelPresetAssetId ∧
        ∀ operation, ∃ action,
          tb1.m_operationActions.lookup operation = some action ∧
            action.isChecked = decide (operation = svc.displayMapperOperationType) := by
  obtain ⟨tb1, heq, -, hagain, hfacts⟩ :=
    onViewportSettingsChanged_spec tb (wellFormed_of_reachable h) svc
  exact ⟨tb1, heq, hagain, hfacts⟩

/-- Witness for C8: a toolbar constructed under AcesLut, refreshed twice under Aces. -/
theorem onViewportSettingsChanged_idempotent_witness :
    ∃ tb1,
      (constructed ⟨true, false, true, ⟨1, 2⟩, ⟨3, 4⟩,
            DisplayMapperOperationType.AcesLut⟩).OnViewportSettingsChanged
          ⟨false, true, false, ⟨7, 0⟩, ⟨5, 6⟩, DisplayMapperOperationType.Aces⟩ =
          some (tb1, ⟨false, true, false, ⟨7, 0⟩, ⟨5, 6⟩, DisplayMapperOperationType.Aces⟩) ∧
        tb1.OnViewportSettingsChanged
            ⟨false, true, false, ⟨7, 0⟩, ⟨5, 6⟩, DisplayMapperOperationType.Aces⟩ =
          some (tb1, ⟨false, true, false, ⟨7, 0⟩, ⟨5, 6⟩, DisplayMapperOperationType.Aces⟩) ∧
        tb1.m_toggleShadowCatcher.isChecked = true := by
  obtain ⟨tb1, heq, hagain, -, hshadow, -⟩ :=
    onViewportSettingsChanged_idempotent
      (constructed ⟨true, false, true, ⟨1, 2⟩, ⟨3, 4⟩, DisplayMapperOperationType.AcesLut⟩)
      (Reachable.construct
        ⟨true, false, true, ⟨1, 2⟩, ⟨3, 4⟩, DisplayMapperOperationType.AcesLut⟩
        ⟨true, false, true, ⟨1, 2⟩, ⟨3, 4⟩, DisplayMapperOperationType.AcesLut⟩ _ rfl)
      ⟨false, true, false, ⟨7, 0⟩, ⟨5, 6⟩, DisplayMapperOperationType.Aces⟩
  exact ⟨tb1, heq, hagain, hshadow⟩

end MaterialEditorToolBar

end MaterialEditor
